import Mathlib

/-
Shallow embedding of src/UserInputWin32/src/main.cpp.

Floats (the D2D1 point/ellipse coordinates and the DPI scale factors) are
modelled as rationals; HRESULT values are modelled as signed integers with
SUCCEEDED hr = (0 ≤ hr) and FAILED hr = (hr < 0), matching the Win32
macros on the signed 32-bit interpretation.  Pointers to COM resources are
modelled as Booleans (present / NULL).  The graphics backend (Direct2D) is
external: the HRESULTs it returns are inputs to each call.
-/

namespace UserInputWin32

/-- D2D1_POINT_2F from main.cpp, with float modelled as ℚ. -/
structure D2DPoint where
  x : ℚ
  y : ℚ
deriving DecidableEq, Repr

/-- D2D1_ELLIPSE: a center point and the x- and y-radii. -/
structure D2DEllipse where
  point : D2DPoint
  radiusX : ℚ
  radiusY : ℚ
deriving DecidableEq, Repr

/-- The two static scale factors of class DPIScale (main.cpp lines 45-75). -/
structure DPIScale where
  scaleX : ℚ
  scaleY : ℚ
deriving DecidableEq, Repr

/-- The static initializers `float DPIScale::scaleX = 1.0f; float DPIScale::scaleY = 1.0f;`. -/
def DPIScale.statics : DPIScale := ⟨1, 1⟩

/-- DPIScale::Initialize: `dpiX = dpiY = GetDpiForWindow(hWnd); scaleX = dpiX / 96.0f; scaleY = dpiY / 96.0f;`.
The single window DPI value returned by the host is the parameter. -/
def DPIScale.Initialize (dpi : ℚ) : DPIScale := ⟨dpi / 96, dpi / 96⟩

/-- DPIScale::PixelsToDips: divides each pixel coordinate by the corresponding scale factor. -/
def DPIScale.PixelsToDips (s : DPIScale) (x y : ℚ) : D2DPoint :=
  ⟨x / s.scaleX, y / s.scaleY⟩

/-- The DPIScale states the program can be in: the static initial values,
or the result of DPIScale::Initialize for some window DPI (called at WM_CREATE). -/
inductive DPIScale.Reachable : DPIScale → Prop
  | statics : DPIScale.Reachable DPIScale.statics
  | init (dpi : ℚ) : DPIScale.Reachable (DPIScale.Initialize dpi)

/-- HRESULT S_OK. -/
def S_OK : Int := 0

/-- D2DERR_RECREATE_TARGET (0x8899000C), as a signed 32-bit value. -/
def D2DERR_RECREATE_TARGET : Int := 0x8899000C - 0x100000000

/-- Win32 SUCCEEDED macro on the signed interpretation of an HRESULT. -/
def SUCCEEDED (hr : Int) : Bool := decide (0 ≤ hr)

/-- Win32 FAILED macro on the signed interpretation of an HRESULT. -/
def FAILED (hr : Int) : Bool := decide (hr < 0)

/-- SafeRelease (main.cpp lines 35-42): whether or not the pointer is set,
afterwards it is NULL (modelled as false). -/
def SafeRelease (_p : Bool) : Bool := false

/-- The HRESULTs the Direct2D backend returns to one round of calls:
CreateHwndRenderTarget, CreateSolidColorBrush, and EndDraw. -/
structure Backend where
  createHwndRenderTargetHr : Int
  createSolidColorBrushHr : Int
  endDrawHr : Int
deriving DecidableEq, Repr

/-- The MainWindow members the claims concern, plus the host capture flag:
`captured` models whether this window currently holds the mouse capture
(set by SetCapture, cleared by ReleaseCapture). -/
structure MainWindowState where
  pRenderTarget : Bool
  pBrush : Bool
  ellipse : D2DEllipse
  ptMouse : D2DPoint
  captured : Bool
deriving DecidableEq, Repr

/-- The MainWindow constructor: NULL resource pointers,
ellipse = D2D1::Ellipse(D2D1::Point2F(), 0, 0), ptMouse = D2D1::Point2F();
no capture held initially. -/
def MainWindowState.ctor : MainWindowState :=
  ⟨false, false, ⟨⟨0, 0⟩, 0, 0⟩, ⟨0, 0⟩, false⟩

/-- MainWindow::CreateGraphicsResources (main.cpp lines 112-147):
if pRenderTarget is NULL, create the render target; on success create the
solid-color brush (CalculateLayout is empty).  The returned Int is the hr
the function returns.  Each COM create sets its output pointer only on
success.  Note the C++ checks only pRenderTarget == NULL, and on a brush
creation failure does not release the already created render target. -/
def CreateGraphicsResources (b : Backend) (s : MainWindowState) :
    MainWindowState × Int :=
  if s.pRenderTarget = false then
    let hr := b.createHwndRenderTargetHr
    if SUCCEEDED hr then
      let s1 : MainWindowState := { s with pRenderTarget := true }
      let hr2 := b.createSolidColorBrushHr
      if SUCCEEDED hr2 then
        ({ s1 with pBrush := true }, hr2)
      else
        (s1, hr2)
    else
      (s, hr)
  else
    (s, S_OK)

/-- MainWindow::DiscardGraphicsResources (main.cpp lines 149-153):
SafeRelease both pointers. -/
def DiscardGraphicsResources (s : MainWindowState) : MainWindowState :=
  { s with
    pRenderTarget := SafeRelease s.pRenderTarget
    pBrush := SafeRelease s.pBrush }

/-- The drawing calls MainWindow::OnPaint issues to the render target.
fillEllipse records the ellipse drawn and whether the render target and
brush pointers were non-NULL at the moment of the call. -/
inductive DrawEvent
  | beginDraw
  | clear
  | fillEllipse (e : D2DEllipse) (renderTargetPresent : Bool) (brushPresent : Bool)
  | endDraw
deriving DecidableEq, Repr

/-- MainWindow::OnPaint (main.cpp lines 155-186): ensure resources; if that
hr SUCCEEDED, issue BeginDraw / Clear / FillEllipse(ellipse, pBrush) /
EndDraw, and if the EndDraw hr FAILED or equals D2DERR_RECREATE_TARGET,
DiscardGraphicsResources.  Returns the new state and the draw calls issued
(OnPaint itself returns void in the C++). -/
def OnPaint (b : Backend) (s : MainWindowState) :
    MainWindowState × List DrawEvent :=
  let p := CreateGraphicsResources b s
  let s1 := p.1
  if SUCCEEDED p.2 then
    let evs := [DrawEvent.beginDraw, DrawEvent.clear,
                DrawEvent.fillEllipse s1.ellipse s1.pRenderTarget s1.pBrush,
                DrawEvent.endDraw]
    let hr := b.endDrawHr
    if FAILED hr = true ∨ hr = D2DERR_RECREATE_TARGET then
      (DiscardGraphicsResources s1, evs)
    else
      (s1, evs)
  else
    (s1, [])

/-- MK_LBUTTON. -/
def MK_LBUTTON : Nat := 1

/-- MainWindow::OnLButtonDown (main.cpp lines 204-217): SetCapture, then
`ellipse.point = ptMouse = DPIScale::PixelsToDips(pixelX, pixelY)` and
`ellipse.radiusX = ellipse.radiusY = 1.0f` (flags is unused). -/
def OnLButtonDown (scale : DPIScale) (s : MainWindowState)
    (pixelX pixelY : Int) (_flags : Nat) : MainWindowState :=
  let p := scale.PixelsToDips (pixelX : ℚ) (pixelY : ℚ)
  { s with
    captured := true
    ptMouse := p
    ellipse := ⟨p, 1, 1⟩ }

/-- MainWindow::OnMouseMove (main.cpp lines 220-237): if flags & MK_LBUTTON,
recompute the ellipse from the signed half-deltas between the current DIP
point and ptMouse; otherwise do nothing. -/
def OnMouseMove (scale : DPIScale) (s : MainWindowState)
    (pixelX pixelY : Int) (flags : Nat) : MainWindowState :=
  if Nat.land flags MK_LBUTTON ≠ 0 then
    let dips := scale.PixelsToDips (pixelX : ℚ) (pixelY : ℚ)
    let width := (dips.x - s.ptMouse.x) / 2
    let height := (dips.y - s.ptMouse.y) / 2
    let x1 := s.ptMouse.x + width
    let y1 := s.ptMouse.y + height
    { s with ellipse := ⟨⟨x1, y1⟩, width, height⟩ }
  else
    s

/-- MainWindow::OnLButtonUp (main.cpp lines 240-243): ReleaseCapture. -/
def OnLButtonUp (s : MainWindowState) : MainWindowState :=
  { s with captured := false }

/-- The window messages relevant to the claims, with the data each carries.
A paint carries the HRESULTs the backend will return during that paint. -/
inductive Event
  | lbuttonDown (pixelX pixelY : Int) (flags : Nat)
  | lbuttonUp
  | mouseMove (pixelX pixelY : Int) (flags : Nat)
  | paint (b : Backend)
  | destroy
deriving DecidableEq, Repr

/-- The claim-relevant cases of MainWindow::HandleMessage (main.cpp lines
264-end): each returns the new state, the draw calls issued, and the
LRESULT the case returns (0 for all of these).  WM_DESTROY calls
DiscardGraphicsResources and SafeRelease(&pFactory) only: it does not
touch the capture flag. -/
def HandleMessage (scale : DPIScale) (s : MainWindowState) (e : Event) :
    MainWindowState × List DrawEvent × Int :=
  match e with
  | .lbuttonDown px py flags => (OnLButtonDown scale s px py flags, [], 0)
  | .lbuttonUp => (OnLButtonUp s, [], 0)
  | .mouseMove px py flags => (OnMouseMove scale s px py flags, [], 0)
  | .paint b =>
      let p := OnPaint b s
      (p.1, p.2, 0)
  | .destroy => (DiscardGraphicsResources s, [], 0)

/-- The message loop: dispatch a list of events in order, collecting the
draw calls issued along the way. -/
def run (scale : DPIScale) (s : MainWindowState) :
    List Event → MainWindowState × List DrawEvent
  | [] => (s, [])
  | e :: es =>
      let p := HandleMessage scale s e
      let q := run scale p.1 es
      (q.1, p.2.1 ++ q.2)

/-- Claim C1 (evidence of the code defect): with a backend where render-target
creation succeeds (hr 0) and brush creation fails (hr -1), starting from the
constructor state, CreateGraphicsResources returns a failed hr but leaves the
render target set and the brush NULL: the dangling surface is not discarded,
so the state is neither "both" nor "neither". -/
theorem C1_partial_failure_leaves_dangling_surface :
    (CreateGraphicsResources ⟨0, -1, 0⟩ MainWindowState.ctor).1.pRenderTarget = true ∧
    (CreateGraphicsResources ⟨0, -1, 0⟩ MainWindowState.ctor).1.pBrush = false ∧
    FAILED (CreateGraphicsResources ⟨0, -1, 0⟩ MainWindowState.ctor).2 = true := by
  decide

/-- Claim C2 (evidence of the code defect): after a paint whose brush creation
failed, a second paint finds pRenderTarget non-NULL, so CreateGraphicsResources
returns S_OK without creating the brush, and FillEllipse is issued with the
brush pointer NULL: fill_ellipse is reached with an absent resource. -/
theorem C2_fillEllipse_issued_with_absent_brush :
    DrawEvent.fillEllipse ⟨⟨0, 0⟩, 0, 0⟩ true false ∈
      (run DPIScale.statics MainWindowState.ctor
        [Event.paint ⟨0, -1, 0⟩, Event.paint ⟨0, 0, 0⟩]).2 := by
  decide

/-- Claim C3 (counterexample): with scale 1, pressing at pixel (100,100) and
then moving to pixel (0,0) with the button held leaves radiusX = -50 < 0:
the radii are the signed half-deltas, not magnitudes. -/
theorem C3_counterexample :
    (OnMouseMove DPIScale.statics
        (OnLButtonDown DPIScale.statics MainWindowState.ctor 100 100 MK_LBUTTON)
        0 0 MK_LBUTTON).ellipse.radiusX < 0 := by
  have h : Nat.land MK_LBUTTON MK_LBUTTON ≠ 0 := by decide
  simp only [OnMouseMove, OnLButtonDown, DPIScale.PixelsToDips, DPIScale.statics,
    MainWindowState.ctor, if_pos h]
  norm_num

/-- Claim C3 (amended): after on_press the radii equal 1 (hence ≥ 0), but
on_move with the primary button held sets the radii to the signed half-deltas
(current − anchor)/2 on each axis, without taking magnitudes, so they are
negative whenever the current point is left of or above the anchor. -/
theorem C3_amended_signed_half_deltas (scale : DPIScale) (s : MainWindowState)
    (pixelX pixelY : Int) (flags : Nat) (h : Nat.land flags MK_LBUTTON ≠ 0) :
    (OnLButtonDown scale s pixelX pixelY flags).ellipse.radiusX = 1 ∧
    (OnLButtonDown scale s pixelX pixelY flags).ellipse.radiusY = 1 ∧
    (OnMouseMove scale s pixelX pixelY flags).ellipse.radiusX =
      ((pixelX : ℚ) / scale.scaleX - s.ptMouse.x) / 2 ∧
    (OnMouseMove scale s pixelX pixelY flags).ellipse.radiusY =
      ((pixelY : ℚ) / scale.scaleY - s.ptMouse.y) / 2 := by
  refine ⟨rfl, rfl, ?_, ?_⟩ <;>
    simp only [OnMouseMove, DPIScale.PixelsToDips, if_pos h]

/-- Claim C3 witness: the amended statement at scale 1, anchor state ctor,
move to pixel (10,6) with the button held. -/
theorem C3_amended_witness :
    (OnLButtonDown DPIScale.statics MainWindowState.ctor 10 6 1).ellipse.radiusX = 1 ∧
    (OnLButtonDown DPIScale.statics MainWindowState.ctor 10 6 1).ellipse.radiusY = 1 ∧
    (OnMouseMove DPIScale.statics MainWindowState.ctor 10 6 1).ellipse.radiusX =
      (((10 : Int) : ℚ) / DPIScale.statics.scaleX - MainWindowState.ctor.ptMouse.x) / 2 ∧
    (OnMouseMove DPIScale.statics MainWindowState.ctor 10 6 1).ellipse.radiusY =
      (((6 : Int) : ℚ) / DPIScale.statics.scaleY - MainWindowState.ctor.ptMouse.y) / 2 :=
  C3_amended_signed_half_deltas DPIScale.statics MainWindowState.ctor 10 6 1 (by decide)

/-- Claim C4 (counterexample): a button-down (which calls SetCapture)
followed by WM_DESTROY leaves the capture flag set: the WM_DESTROY case
discards graphics resources but never calls ReleaseCapture. -/
theorem C4_counterexample :
    (run DPIScale.statics MainWindowState.ctor
      [Event.lbuttonDown 10 10 MK_LBUTTON, Event.destroy]).1.captured = true := by
  decide

/-- Claim C4 (amended): pointer capture acquired at button-down is released
at button-up, but the window-destroy teardown path issues no capture release:
it leaves the capture flag exactly as it was (while still discarding the
graphics resources). -/
theorem C4_amended_release_only_at_button_up (scale : DPIScale)
    (s : MainWindowState) (pixelX pixelY : Int) (flags : Nat) :
    (HandleMessage scale s (Event.lbuttonDown pixelX pixelY flags)).1.captured = true ∧
    (HandleMessage scale s Event.lbuttonUp).1.captured = false ∧
    (HandleMessage scale s Event.destroy).1.captured = s.captured ∧
    (HandleMessage scale s Event.destroy).1.pRenderTarget = false ∧
    (HandleMessage scale s Event.destroy).1.pBrush = false :=
  ⟨rfl, rfl, rfl, rfl, rfl⟩

/-- Claim C5: whenever the resource-creation step of a paint succeeds and
EndDraw reports any failure (device-lost included), OnPaint discards both
device-dependent resources, issues FillEllipse and EndDraw exactly once
each (no retry within the frame), and the WM_PAINT dispatch still returns
LRESULT 0: the error never propagates past the paint boundary. -/
theorem C5_end_draw_failure_recovers (scale : DPIScale) (b : Backend)
    (s : MainWindowState)
    (hok : SUCCEEDED (CreateGraphicsResources b s).2 = true)
    (hfail : FAILED b.endDrawHr = true) :
    (OnPaint b s).1.pRenderTarget = false ∧
    (OnPaint b s).1.pBrush = false ∧
    (OnPaint b s).2.countP (fun e => match e with
        | DrawEvent.fillEllipse _ _ _ => true
        | _ => false) = 1 ∧
    (OnPaint b s).2.countP (fun e => match e with
        | DrawEvent.endDraw => true
        | _ => false) = 1 ∧
    (HandleMessage scale s (Event.paint b)).2.2 = 0 := by
  have hpaint : OnPaint b s =
      (DiscardGraphicsResources (CreateGraphicsResources b s).1,
        [DrawEvent.beginDraw, DrawEvent.clear,
          DrawEvent.fillEllipse (CreateGraphicsResources b s).1.ellipse
            (CreateGraphicsResources b s).1.pRenderTarget
            (CreateGraphicsResources b s).1.pBrush,
          DrawEvent.endDraw]) := by
    simp only [OnPaint, hok, if_true, if_pos (Or.inl hfail)]
  refine ⟨?_, ?_, ?_, ?_, rfl⟩ <;> rw [hpaint] <;> rfl

/-- Claim C5 witness: the theorem at the constructor state with a backend
whose creations succeed and whose EndDraw returns D2DERR_RECREATE_TARGET. -/
theorem C5_witness :
    (OnPaint ⟨0, 0, D2DERR_RECREATE_TARGET⟩ MainWindowState.ctor).1.pRenderTarget = false ∧
    (OnPaint ⟨0, 0, D2DERR_RECREATE_TARGET⟩ MainWindowState.ctor).1.pBrush = false ∧
    (OnPaint ⟨0, 0, D2DERR_RECREATE_TARGET⟩ MainWindowState.ctor).2.countP
      (fun e => match e with
        | DrawEvent.fillEllipse _ _ _ => true
        | _ => false) = 1 ∧
    (OnPaint ⟨0, 0, D2DERR_RECREATE_TARGET⟩ MainWindowState.ctor).2.countP
      (fun e => match e with
        | DrawEvent.endDraw => true
        | _ => false) = 1 ∧
    (HandleMessage DPIScale.statics MainWindowState.ctor
      (Event.paint ⟨0, 0, D2DERR_RECREATE_TARGET⟩)).2.2 = 0 :=
  C5_end_draw_failure_recovers DPIScale.statics ⟨0, 0, D2DERR_RECREATE_TARGET⟩
    MainWindowState.ctor (by decide) (by decide)

/-- Claim C6: for any pixel coordinates and positive scale factors,
OnLButtonDown sets both the anchor (ptMouse) and the ellipse center to the
DIP point (pixelX/scaleX, pixelY/scaleY), sets both radii to 1, and
acquires capture. -/
theorem C6_on_press (scale : DPIScale) (s : MainWindowState)
    (pixelX pixelY : Int) (flags : Nat)
    (_hx : 0 < scale.scaleX) (_hy : 0 < scale.scaleY) :
    (OnLButtonDown scale s pixelX pixelY flags).ptMouse =
      ⟨(pixelX : ℚ) / scale.scaleX, (pixelY : ℚ) / scale.scaleY⟩ ∧
    (OnLButtonDown scale s pixelX pixelY flags).ellipse.point =
      ⟨(pixelX : ℚ) / scale.scaleX, (pixelY : ℚ) / scale.scaleY⟩ ∧
    (OnLButtonDown scale s pixelX pixelY flags).ellipse.radiusX = 1 ∧
    (OnLButtonDown scale s pixelX pixelY flags).ellipse.radiusY = 1 ∧
    (OnLButtonDown scale s pixelX pixelY flags).captured = true :=
  ⟨rfl, rfl, rfl, rfl, rfl⟩

/-- Claim C6 witness: a press at pixel (100,100) with scale 1.0 yields a
shape centered at (100,100) with radiusX = radiusY = 1. -/
theorem C6_witness :
    (OnLButtonDown ⟨1, 1⟩ MainWindowState.ctor 100 100 1).ptMouse = ⟨100, 100⟩ ∧
    (OnLButtonDown ⟨1, 1⟩ MainWindowState.ctor 100 100 1).ellipse.point = ⟨100, 100⟩ ∧
    (OnLButtonDown ⟨1, 1⟩ MainWindowState.ctor 100 100 1).ellipse.radiusX = 1 ∧
    (OnLButtonDown ⟨1, 1⟩ MainWindowState.ctor 100 100 1).ellipse.radiusY = 1 := by
  have h := C6_on_press ⟨1, 1⟩ MainWindowState.ctor 100 100 1 (by norm_num) (by norm_num)
  refine ⟨?_, ?_, h.2.2.1, h.2.2.2.1⟩
  · rw [h.1]; norm_num
  · rw [h.2.1]; norm_num

/-- Claim C7: with scale 1.0, a press at pixel (0,0) followed by a move to
pixel (50,50) with the primary button held yields center (25,25) and
radiusX = radiusY = 25. -/
theorem C7_press_then_drag :
    (OnMouseMove DPIScale.statics
        (OnLButtonDown DPIScale.statics MainWindowState.ctor 0 0 MK_LBUTTON)
        50 50 MK_LBUTTON).ellipse = ⟨⟨25, 25⟩, 25, 25⟩ := by
  have h : Nat.land MK_LBUTTON MK_LBUTTON ≠ 0 := by decide
  simp only [OnMouseMove, OnLButtonDown, DPIScale.PixelsToDips, DPIScale.statics,
    MainWindowState.ctor, if_pos h]
  norm_num

/-- Claim C8: a move event delivered while the primary button is not held
leaves the whole state (ellipse, anchor, resources, capture) unchanged. -/
theorem C8_move_without_button_is_noop (scale : DPIScale) (s : MainWindowState)
    (pixelX pixelY : Int) (flags : Nat) (h : Nat.land flags MK_LBUTTON = 0) :
    OnMouseMove scale s pixelX pixelY flags = s := by
  simp only [OnMouseMove, h, ne_eq, not_true_eq_false, if_false]

/-- Claim C8 witness: a move with flags 0 at the constructor state. -/
theorem C8_witness :
    OnMouseMove DPIScale.statics MainWindowState.ctor 7 9 0 = MainWindowState.ctor :=
  C8_move_without_button_is_noop DPIScale.statics MainWindowState.ctor 7 9 0 (by decide)

/-- Claim C9: DiscardGraphicsResources from any state leaves both pointers
NULL, and applying it a second time is a no-op giving the same state. -/
theorem C9_discard_idempotent (s : MainWindowState) :
    DiscardGraphicsResources (DiscardGraphicsResources s) = DiscardGraphicsResources s ∧
    (DiscardGraphicsResources s).pRenderTarget = false ∧
    (DiscardGraphicsResources s).pBrush = false :=
  ⟨rfl, rfl, rfl⟩

/-- Claim C10: in every reachable DPIScale state (the static initial values,
or the result of Initialize from a single window DPI) the two scale factors
are equal, so pixel-to-DIP conversion scales both axes uniformly. -/
theorem C10_uniform_scale (s : DPIScale) (h : DPIScale.Reachable s) :
    s.scaleX = s.scaleY := by
  cases h with
  | statics => rfl
  | init dpi => rfl

/-- Claim C10 witness: the invariant at the static initial state. -/
theorem C10_witness : DPIScale.statics.scaleX = DPIScale.statics.scaleY :=
  C10_uniform_scale DPIScale.statics DPIScale.Reachable.statics

end UserInputWin32
